import Mathlib

/-!
Verification of the Trivia-FSND backend (src/backend/flaskr/__init__.py and
src/backend/constants.py) against its natural-language specification.

The Python code is shallowly embedded: query results are Lean lists, the
database store is an explicit record threaded through the stateful handlers,
Python exceptions are an explicit `Except` value, and the `try:/except:`
wrapper that every view uses is the function `tryExcept500` below.  Note that
a bare Python `except:` also catches the `HTTPException` raised by
`werkzeug.abort`, so an `abort(404)` or `abort(400)` issued inside a `try:`
block is swallowed and replaced by the `abort(500)` of the `except:` clause;
`tryExcept500` reproduces exactly that behaviour.
-/

namespace Trivia

/-- Enum to maintain status codes (class StatusCode in flaskr and constants). -/
inductive StatusCode where
  | HTTP_200_OK
  | HTTP_201_CREATED
  | HTTP_204_NO_CONTENT
  | HTTP_400_BAD_REQUEST
  | HTTP_401_UNAUTHORIZED
  | HTTP_403_FORBIDDEN
  | HTTP_404_NOT_FOUND
  | HTTP_405_METHOD_NOT_ALLOWED
  | HTTP_422_UNPROCESSABLE_ENTITY
  | HTTP_500_INTERNAL_SERVER_ERROR
deriving DecidableEq

/-- Numeric value of a member of the Python Enum (StatusCode.X.value). -/
def StatusCode.value : StatusCode → Nat
  | .HTTP_200_OK => 200
  | .HTTP_201_CREATED => 201
  | .HTTP_204_NO_CONTENT => 204
  | .HTTP_400_BAD_REQUEST => 400
  | .HTTP_401_UNAUTHORIZED => 401
  | .HTTP_403_FORBIDDEN => 403
  | .HTTP_404_NOT_FOUND => 404
  | .HTTP_405_METHOD_NOT_ALLOWED => 405
  | .HTTP_422_UNPROCESSABLE_ENTITY => 422
  | .HTTP_500_INTERNAL_SERVER_ERROR => 500

/-- Name string of a member of the Python Enum (StatusCode.X.name). -/
def StatusCode.name : StatusCode → String
  | .HTTP_200_OK => "HTTP_200_OK"
  | .HTTP_201_CREATED => "HTTP_201_CREATED"
  | .HTTP_204_NO_CONTENT => "HTTP_204_NO_CONTENT"
  | .HTTP_400_BAD_REQUEST => "HTTP_400_BAD_REQUEST"
  | .HTTP_401_UNAUTHORIZED => "HTTP_401_UNAUTHORIZED"
  | .HTTP_403_FORBIDDEN => "HTTP_403_FORBIDDEN"
  | .HTTP_404_NOT_FOUND => "HTTP_404_NOT_FOUND"
  | .HTTP_405_METHOD_NOT_ALLOWED => "HTTP_405_METHOD_NOT_ALLOWED"
  | .HTTP_422_UNPROCESSABLE_ENTITY => "HTTP_422_UNPROCESSABLE_ENTITY"
  | .HTTP_500_INTERNAL_SERVER_ERROR => "HTTP_500_INTERNAL_SERVER_ERROR"

/-- QUESTIONS_PER_PAGE = 10 (defined both in flaskr and in constants.py). -/
def QUESTIONS_PER_PAGE : Int := 10

/-- A row of the Category table (models.py, attributes listed in spec section 3). -/
structure Category where
  id : Nat
  type : String
deriving DecidableEq

/-- A row of the Question table (models.py, attributes listed in spec section 3). -/
structure Question where
  id : Nat
  question : String
  answer : String
  category : Nat
  difficulty : Nat
deriving DecidableEq

/-- Modelled from the spec: models.py is not included in src/; per spec
section 4.2 the formatting helper exposes each public attribute of the
entity as a plain key/value mapping. -/
structure FormattedQuestion where
  id : Nat
  question : String
  answer : String
  category : Nat
  difficulty : Nat
deriving DecidableEq

/-- Modelled from the spec: Question.format() from the absent models.py,
returning the public attributes of the row (spec sections 3 and 4.2). -/
def Question.format (q : Question) : FormattedQuestion :=
  ⟨q.id, q.question, q.answer, q.category, q.difficulty⟩

/-- format_selection from flaskr: format each entity of the selection. -/
def format_selection (selection : List Question) : List FormattedQuestion :=
  selection.map Question.format

/-- The database visible to the handlers: the two tables, plus the id the
store will assign to the next inserted question (store-managed primary key). -/
structure TriviaStore where
  questions : List Question
  categories : List Category
  nextId : Nat
deriving DecidableEq

/-- Clamp one slice index the way CPython PySlice_AdjustIndices does for a
step of 1: a negative index counts from the end (and clamps at 0), a
non-negative index clamps at the length. -/
def pySliceIndex (len : Nat) (i : Int) : Nat :=
  if i < 0 then ((len : Int) + i).toNat else min i.toNat len

/-- Python list slicing selection[start:stop] (step 1). -/
def pySlice {α : Type} (l : List α) (start stop : Int) : List α :=
  (l.drop (pySliceIndex l.length start)).take (pySliceIndex l.length stop - pySliceIndex l.length start)

/-- paginate_selection from flaskr: start = (page - 1) * limit,
stop = start + limit, and the result is the Python slice
selection[start:stop] together with len(selection). -/
def paginate_selection {α : Type} (selection : List α) (page : Int := 1) (limit : Int := 10) : List α × Nat :=
  (pySlice selection ((page - 1) * limit) ((page - 1) * limit + limit), selection.length)

/-- The JSON body produced by every registered Flask error handler. -/
structure ErrorEnvelope where
  success : Bool
  error : Nat
  message : String
deriving DecidableEq

/-- An HTTP response of the app: either a success payload with its status
code, or an error envelope with its status code. -/
inductive Response (α : Type) where
  | ok (payload : α) (status : Nat)
  | error (envelope : ErrorEnvelope) (status : Nat)
deriving DecidableEq

/-- The response Flask produces when abort(code) escapes a view: the
registered error handler for that code returns the uniform envelope with
the matching HTTP status. -/
def errorResponseFor {α : Type} (s : StatusCode) : Response α :=
  Response.error ⟨false, s.value, s.name⟩ s.value

/-- A Python exception inside a view body: either a werkzeug HTTPException
raised by abort(code), or any other exception (TypeError, AttributeError,
database failure, ...). -/
inductive PyExc where
  | abortExc (code : Nat)
  | otherExc
deriving DecidableEq

/-- The try/except wrapper every view uses.  The bare except catches every
exception — including the HTTPException raised by an abort inside the try
block — and calls abort(500), which the 500 error handler turns into the
uniform envelope. -/
def tryExcept500 {α : Type} (attempt : Except PyExc (Response α)) : Response α :=
  match attempt with
  | Except.ok r => r
  | Except.error _ => errorResponseFor StatusCode.HTTP_500_INTERNAL_SERVER_ERROR

/-- Success payload of GET /questions. -/
structure ListQuestionsPayload where
  success : Bool
  current_category : Option Nat
  categories : List (Nat × String)
  questions : List FormattedQuestion
  total_questions : Nat
deriving DecidableEq

/-- GET /questions (list_questions in flaskr): paginate all questions,
collect the categories map, abort(404) when the page slice is empty —
an abort the bare except converts to a 500 — otherwise return the page. -/
def list_questions (store : TriviaStore) (page : Int) : Response ListQuestionsPayload :=
  tryExcept500 (
    if (paginate_selection store.questions page QUESTIONS_PER_PAGE).1.length = 0 then
      Except.error (PyExc.abortExc StatusCode.HTTP_404_NOT_FOUND.value)
    else
      Except.ok (Response.ok
        ⟨true, none,
         store.categories.map (fun c => (c.id, c.type)),
         format_selection (paginate_selection store.questions page QUESTIONS_PER_PAGE).1,
         (paginate_selection store.questions page QUESTIONS_PER_PAGE).2⟩
        StatusCode.HTTP_200_OK.value))

/-- The parsed JSON body of POST /questions; `none` stands for a request
whose body is absent, empty, or otherwise falsy after request.get_json(). -/
structure QuestionBody where
  question : String
  answer : String
  category : Nat
  difficulty : Nat
deriving DecidableEq

/-- Success payload of POST /questions. -/
structure CreateQuestionPayload where
  success : Bool
  id : Nat
deriving DecidableEq

/-- POST /questions (create_question in flaskr): a falsy body triggers
abort(400) inside the try block — converted to a 500 by the bare except —
otherwise the question is inserted with a store-assigned id and a 201 is
returned.  The updated store is returned alongside the response. -/
def create_question (store : TriviaStore) (body : Option QuestionBody) :
    TriviaStore × Response CreateQuestionPayload :=
  let attempt : Except PyExc (TriviaStore × Response CreateQuestionPayload) :=
    match body with
    | none => Except.error (PyExc.abortExc StatusCode.HTTP_400_BAD_REQUEST.value)
    | some b =>
      let newQuestion : Question := ⟨store.nextId, b.question, b.answer, b.category, b.difficulty⟩
      Except.ok
        (⟨store.questions ++ [newQuestion], store.categories, store.nextId + 1⟩,
         Response.ok ⟨true, newQuestion.id⟩ StatusCode.HTTP_201_CREATED.value)
  match attempt with
  | Except.ok r => r
  | Except.error _ => (store, errorResponseFor StatusCode.HTTP_500_INTERNAL_SERVER_ERROR)

/-- Success payload of DELETE /questions/{id}. -/
structure DeleteQuestionPayload where
  success : Bool
deriving DecidableEq

/-- DELETE /questions/{id} (delete_question in flaskr): look the question up
by primary key; when absent, abort(404) inside the try block — converted to
a 500 by the bare except — otherwise delete the row and answer 204. -/
def delete_question (store : TriviaStore) (question_id : Nat) :
    TriviaStore × Response DeleteQuestionPayload :=
  let attempt : Except PyExc (TriviaStore × Response DeleteQuestionPayload) :=
    match store.questions.find? (fun q => q.id == question_id) with
    | none => Except.error (PyExc.abortExc StatusCode.HTTP_404_NOT_FOUND.value)
    | some _ =>
      Except.ok
        (⟨store.questions.filter (fun q => q.id != question_id), store.categories, store.nextId⟩,
         Response.ok ⟨true⟩ StatusCode.HTTP_204_NO_CONTENT.value)
  match attempt with
  | Except.ok r => r
  | Except.error _ => (store, errorResponseFor StatusCode.HTTP_500_INTERNAL_SERVER_ERROR)

/-- The parsed JSON body of POST /questions/filter; `none` stands for a
request whose body is absent or not parseable as JSON, in which case
request.get_json() yields no dictionary and dereferencing it raises. -/
structure FilterBody where
  searchTerm : Option String
deriving DecidableEq

/-- Success payload of POST /questions/filter. -/
structure FilterQuestionsPayload where
  success : Bool
  questions : List FormattedQuestion
  total_questions : Nat
deriving DecidableEq

/-- Case-insensitive substring containment, the SQL ilike with wildcards on
both sides used by the filter endpoint. -/
def ilike_contains (text pattern : String) : Bool :=
  decide (List.IsInfix pattern.toLower.toList text.toLower.toList)

/-- POST /questions/filter (filter_questions in flaskr): the handler
dereferences request.get_json() before any presence check, so an absent or
unparseable body raises inside the try block and the bare except answers
500; otherwise the matching questions are paginated and returned. -/
def filter_questions (store : TriviaStore) (body : Option FilterBody) (page : Int) :
    Response FilterQuestionsPayload :=
  tryExcept500 (
    match body with
    | none => Except.error PyExc.otherExc
    | some parsed =>
      Except.ok (Response.ok
        ⟨true,
         format_selection (paginate_selection
           (store.questions.filter (fun q => ilike_contains q.question (parsed.searchTerm.getD "")))
           page QUESTIONS_PER_PAGE).1,
         (paginate_selection
           (store.questions.filter (fun q => ilike_contains q.question (parsed.searchTerm.getD "")))
           page QUESTIONS_PER_PAGE).2⟩
        StatusCode.HTTP_200_OK.value))

/-- Success payload of POST /quizzes. -/
structure QuizPayload where
  success : Bool
  question : Option FormattedQuestion
deriving DecidableEq

/-- Modelled from the spec: the quiz candidate pool of spec section 4.9 —
the POST /quizzes handler is an unimplemented TODO in flaskr — questions are
filtered to the quiz category when its id is truthy (non-zero), otherwise
every question is a candidate. -/
def quizPool (store : TriviaStore) (categoryId : Nat) : List Question :=
  if categoryId ≠ 0 then store.questions.filter (fun q => q.category == categoryId)
  else store.questions

/-- Modelled from the spec: POST /quizzes of spec section 4.9 — the handler
is an unimplemented TODO in flaskr.  A missing (falsy) quiz_category answers
400; otherwise the candidates are the pool questions whose id is not among
previous_questions, and one of them is chosen at random — modelled by the
arbitrary index `pick` — or null when none remains, always with status 200. -/
def play_quiz (store : TriviaStore) (quizCategory : Option Nat)
    (previousQuestions : List Nat) (pick : Nat) : Response QuizPayload :=
  match quizCategory with
  | none => errorResponseFor StatusCode.HTTP_400_BAD_REQUEST
  | some categoryId =>
    let candidates :=
      (quizPool store categoryId).filter (fun q => decide (q.id ∉ previousQuestions))
    match candidates[pick % candidates.length]? with
    | none => Response.ok ⟨true, none⟩ StatusCode.HTTP_200_OK.value
    | some q => Response.ok ⟨true, some q.format⟩ StatusCode.HTTP_200_OK.value

/-- Error handler for bad request with status code 400. -/
def bad_request : ErrorEnvelope × Nat :=
  (⟨false, StatusCode.HTTP_400_BAD_REQUEST.value, StatusCode.HTTP_400_BAD_REQUEST.name⟩,
   StatusCode.HTTP_400_BAD_REQUEST.value)

/-- Error handler for unauthorized with status code 401. -/
def unauthorized : ErrorEnvelope × Nat :=
  (⟨false, StatusCode.HTTP_401_UNAUTHORIZED.value, StatusCode.HTTP_401_UNAUTHORIZED.name⟩,
   StatusCode.HTTP_401_UNAUTHORIZED.value)

/-- Error handler for forbidden with status code 403. -/
def forbidden : ErrorEnvelope × Nat :=
  (⟨false, StatusCode.HTTP_403_FORBIDDEN.value, StatusCode.HTTP_403_FORBIDDEN.name⟩,
   StatusCode.HTTP_403_FORBIDDEN.value)

/-- Error handler for not found with status code 404. -/
def not_found : ErrorEnvelope × Nat :=
  (⟨false, StatusCode.HTTP_404_NOT_FOUND.value, StatusCode.HTTP_404_NOT_FOUND.name⟩,
   StatusCode.HTTP_404_NOT_FOUND.value)

/-- Error handler for method not allowed with status code 405. -/
def method_not_allowed : ErrorEnvelope × Nat :=
  (⟨false, StatusCode.HTTP_405_METHOD_NOT_ALLOWED.value, StatusCode.HTTP_405_METHOD_NOT_ALLOWED.name⟩,
   StatusCode.HTTP_405_METHOD_NOT_ALLOWED.value)

/-- Error handler for unprocessable entity with status code 422. -/
def unprocessable_entity : ErrorEnvelope × Nat :=
  (⟨false, StatusCode.HTTP_422_UNPROCESSABLE_ENTITY.value, StatusCode.HTTP_422_UNPROCESSABLE_ENTITY.name⟩,
   StatusCode.HTTP_422_UNPROCESSABLE_ENTITY.value)

/-- Error handler for internal server error with status code 500. -/
def internal_server_error : ErrorEnvelope × Nat :=
  (⟨false, StatusCode.HTTP_500_INTERNAL_SERVER_ERROR.value, StatusCode.HTTP_500_INTERNAL_SERVER_ERROR.name⟩,
   StatusCode.HTTP_500_INTERNAL_SERVER_ERROR.value)

/-- The table of error handlers registered on the app, as Flask dispatches
them: the handler for the status code of the escaping HTTPException. -/
def appErrorResponse (code : Nat) : Option (ErrorEnvelope × Nat) :=
  if code = 400 then some bad_request
  else if code = 401 then some unauthorized
  else if code = 403 then some forbidden
  else if code = 404 then some not_found
  else if code = 405 then some method_not_allowed
  else if code = 422 then some unprocessable_entity
  else if code = 500 then some internal_server_error
  else none

/-- Environment variables read by constants.py; `none` is an unset variable. -/
structure DatabaseEnvironment where
  DATABASE_USER : Option String
  DATABASE_PASSWORD : Option String
  DATABASE_NAME : Option String
  DATABASE_HOST : Option String
  DATABASE_PORT : Option String
deriving DecidableEq

/-- Python "x or default" applied to os.environ.get: both None (unset) and
the empty string are falsy and fall back to the default. -/
def pyOrDefault (value : Option String) (fallback : String) : String :=
  match value with
  | none => fallback
  | some s => if s = "" then fallback else s

/-- The DATABASE_CONFIGURATION dictionary of constants.py. -/
structure DatabaseConfiguration where
  username : String
  password : String
  name : String
  host : String
  port : String
deriving DecidableEq

/-- DATABASE_CONFIGURATION from constants.py, as a function of the process
environment. -/
def DATABASE_CONFIGURATION (env : DatabaseEnvironment) : DatabaseConfiguration :=
  ⟨pyOrDefault env.DATABASE_USER "",
   pyOrDefault env.DATABASE_PASSWORD "",
   pyOrDefault env.DATABASE_NAME "trivia",
   pyOrDefault env.DATABASE_HOST "localhost",
   pyOrDefault env.DATABASE_PORT "5432"⟩

/-- DATABASE_PATH from constants.py: the formatted connection string. -/
def DATABASE_PATH (env : DatabaseEnvironment) : String :=
  "postgres://" ++ (DATABASE_CONFIGURATION env).username ++ ":" ++
    (DATABASE_CONFIGURATION env).password ++ "@" ++
    (DATABASE_CONFIGURATION env).host ++ ":" ++
    (DATABASE_CONFIGURATION env).port ++ "/" ++
    (DATABASE_CONFIGURATION env).name

/-! Helper lemmas about the pagination helper. -/

/-- A Python slice with a non-negative start and width m is drop then take. -/
theorem pySlice_natCast {α : Type} (l : List α) (k m : Nat) :
    pySlice l (k : Int) (((k + m : Nat) : Int)) = (l.drop k).take m := by
  unfold pySlice pySliceIndex
  rw [if_neg (by omega), if_neg (by omega)]
  rw [Int.toNat_natCast, Int.toNat_natCast]
  rcases le_or_lt k l.length with h | h
  · rw [min_eq_left h]
    have h2 : min (k + m) l.length - k = min m (l.length - k) := by omega
    rw [h2]
    refine (List.take_eq_take.mpr ?_)
    simp [List.length_drop]
  · rw [min_eq_right h.le, min_eq_right (by omega : l.length ≤ k + m)]
    simp [List.drop_eq_nil_of_le h.le, List.drop_eq_nil_of_le (le_refl l.length)]

/-- For a positive page the helper is plain drop and take. -/
theorem paginate_selection_pos {α : Type} (l : List α) (n : Int) (h : 1 ≤ n) :
    paginate_selection l n 10 = ((l.drop ((n - 1) * 10).toNat).take 10, l.length) := by
  unfold paginate_selection
  have h0 : (0 : Int) ≤ (n - 1) * 10 := mul_nonneg (by omega) (by norm_num)
  obtain ⟨k, hk⟩ := Int.eq_ofNat_of_zero_le h0
  rw [hk]
  have h1 : (k : Int) + 10 = ((k + 10 : Nat) : Int) := by push_cast; ring
  rw [h1, pySlice_natCast, Int.toNat_natCast]

/-- Length of the page returned for a positive page number. -/
theorem paginate_selection_length_pos {α : Type} (l : List α) (n : Int) (h : 1 ≤ n) :
    ((paginate_selection l n 10).1.length : Int) =
      min 10 (max 0 ((l.length : Int) - (n - 1) * 10)) := by
  rw [paginate_selection_pos l n h]
  simp only [List.length_take, List.length_drop]
  have h0 : (0 : Int) ≤ (n - 1) * 10 := mul_nonneg (by omega) (by norm_num)
  omega

/-- C2, corrected claim: for page size 10 the helper always reports the total
length of the input sequence, and for every page number n at least 1 it
returns the sub-sequence of at most 10 items starting at offset (n-1)*10,
whose length is exactly min(10, max(0, L-(n-1)*10)).  For page numbers at
most 0 the item-count formula of the original claim fails, because Python
slicing then interprets the negative start index from the end of the list. -/
theorem paginate_page_formula {α : Type} (l : List α) (n : Int) :
    (1 ≤ n →
      (paginate_selection l n 10).1 = (l.drop ((n - 1) * 10).toNat).take 10 ∧
      ((paginate_selection l n 10).1.length : Int) =
        min 10 (max 0 ((l.length : Int) - (n - 1) * 10))) ∧
    (paginate_selection l n 10).2 = l.length := by
  refine ⟨fun h => ⟨?_, paginate_selection_length_pos l n h⟩, rfl⟩
  rw [paginate_selection_pos l n h]

/-- Witness for C2 at the concrete input of 11 items, page 2. -/
theorem paginate_page_formula_witness :
    (paginate_selection (List.range 11) 2 10).1 =
      ((List.range 11).drop (((2 : Int) - 1) * 10).toNat).take 10 ∧
    (paginate_selection (List.range 11) 2 10).2 = (List.range 11).length :=
  ⟨((paginate_page_formula (List.range 11) 2).1 (by norm_num)).1,
   (paginate_page_formula (List.range 11) 2).2⟩

/-- C2, counterexample to the original claim: at page 0 over 5 items the
formula min(10, max(0, L-(n-1)*10)) predicts 10 items but the helper
returns the empty slice selection[-10:0]. -/
theorem paginate_page_formula_page_zero_fails :
    ¬ (((paginate_selection (List.range 5) 0 10).1.length : Int) =
        min 10 (max 0 (((List.range 5).length : Int) - ((0 : Int) - 1) * 10))) := by
  decide

/-- C3, corrected claim: the helper returns an empty sub-sequence (and never
raises) for page 0 and for every page number at least 1 whose offset is at
or beyond the end of the sequence.  For negative page numbers the original
claim fails: Python slicing counts a negative start from the end of the
list, so a non-empty slice can come back. -/
theorem paginate_out_of_range_empty {α : Type} (l : List α) (n : Int)
    (h : n = 0 ∨ (1 ≤ n ∧ (l.length : Int) ≤ (n - 1) * 10)) :
    (paginate_selection l n 10).1 = [] := by
  rcases h with rfl | ⟨h1, h2⟩
  · norm_num [paginate_selection, pySlice, pySliceIndex]
  · rw [paginate_selection_pos l n h1]
    have hge : l.length ≤ ((n - 1) * 10).toNat := by omega
    rw [List.drop_eq_nil_of_le hge]
    simp

/-- Witness for C3 at the concrete input of 5 items, page 99. -/
theorem paginate_out_of_range_empty_witness :
    (paginate_selection (List.range 5) 99 10).1 = [] :=
  paginate_out_of_range_empty (List.range 5) 99
    (Or.inr ⟨by norm_num, by norm_num [List.length_range]⟩)

/-- C3, counterexample to the original claim: at page -1 over 11 items the
slice selection[-20:-10] is the first item, not the empty list. -/
theorem paginate_negative_page_nonempty :
    (paginate_selection (List.range 11) (-1) 10).1 ≠ [] := by
  decide

/-- A concrete store holding 5 questions, as in the spec scenario. -/
def fiveQuestionStore : TriviaStore :=
  ⟨(List.range 5).map (fun n => ⟨n + 1, "prompt", "answer", 1, 1⟩), [⟨1, "Science"⟩], 6⟩

/-- A concrete store holding the single question with id 5. -/
def singleQuestionStore : TriviaStore :=
  ⟨[⟨5, "What is trivia", "a quiz game", 1, 1⟩], [⟨1, "Science"⟩], 6⟩

/-- A concrete empty store. -/
def emptyStore : TriviaStore := ⟨[], [], 1⟩

/-- C1: the claim fails on the code.  When the requested page slice is empty
the view calls abort(404) inside its try block, but the bare except catches
the HTTPException and replaces it with abort(500), so GET /questions with 5
stored questions and page 99 — and likewise page 1 of an empty store —
responds with the 500 error envelope, not the 404 envelope the spec
promises (and not a success payload). -/
theorem list_questions_empty_page_responds_500 :
    list_questions fiveQuestionStore 99 =
      errorResponseFor StatusCode.HTTP_500_INTERNAL_SERVER_ERROR ∧
    list_questions fiveQuestionStore 99 ≠
      errorResponseFor StatusCode.HTTP_404_NOT_FOUND ∧
    list_questions emptyStore 1 =
      errorResponseFor StatusCode.HTTP_500_INTERNAL_SERVER_ERROR := by
  refine ⟨rfl, by decide, rfl⟩

/-- C4: the claim fails on the code.  A falsy request body triggers
abort(400) inside the try block, but the bare except catches the
HTTPException and replaces it with abort(500), so POST /questions with an
absent or empty body responds with the 500 error envelope, not the 400
envelope the spec promises; no question is persisted (the store is
returned unchanged). -/
theorem create_question_falsy_body_responds_500 (store : TriviaStore) :
    create_question store none =
      (store, errorResponseFor StatusCode.HTTP_500_INTERNAL_SERVER_ERROR) ∧
    (create_question store none).2 ≠
      errorResponseFor StatusCode.HTTP_400_BAD_REQUEST := by
  refine ⟨rfl, ?_⟩
  show (errorResponseFor StatusCode.HTTP_500_INTERNAL_SERVER_ERROR : Response CreateQuestionPayload) ≠
    errorResponseFor StatusCode.HTTP_400_BAD_REQUEST
  decide

/-- C5: the claim fails on the code.  Deleting an absent id triggers
abort(404) inside the try block, but the bare except catches the
HTTPException and replaces it with abort(500): the first DELETE of id 5
succeeds with 204, and the second DELETE of the same id responds with the
500 error envelope, not the 404 envelope the spec promises. -/
theorem delete_question_twice_responds_500 :
    (delete_question singleQuestionStore 5).2 =
      Response.ok ⟨true⟩ StatusCode.HTTP_204_NO_CONTENT.value ∧
    delete_question (delete_question singleQuestionStore 5).1 5 =
      ((delete_question singleQuestionStore 5).1,
       errorResponseFor StatusCode.HTTP_500_INTERNAL_SERVER_ERROR) ∧
    (delete_question (delete_question singleQuestionStore 5).1 5).2 ≠
      errorResponseFor StatusCode.HTTP_404_NOT_FOUND := by
  refine ⟨rfl, rfl, by decide⟩

/-- C9: POST /questions/filter dereferences the parsed body before any
presence check, so an absent or unparseable body raises inside the try
block and the bare except answers with the 500 error envelope — not 400 —
for every store and page. -/
theorem filter_questions_missing_body_responds_500 (store : TriviaStore) (page : Int) :
    filter_questions store none page =
      errorResponseFor StatusCode.HTTP_500_INTERNAL_SERVER_ERROR ∧
    filter_questions store none page ≠
      errorResponseFor StatusCode.HTTP_400_BAD_REQUEST := by
  refine ⟨rfl, ?_⟩
  show (errorResponseFor StatusCode.HTTP_500_INTERNAL_SERVER_ERROR : Response FilterQuestionsPayload) ≠
    errorResponseFor StatusCode.HTTP_400_BAD_REQUEST
  decide

/-- C10: for each of DATABASE_NAME, DATABASE_HOST and DATABASE_PORT, the
Python expression os.environ.get(var) or default treats the empty string
exactly like an unset variable, so the connection string is the same in
both cases and the corresponding field takes its default value trivia,
localhost or 5432. -/
theorem database_defaults_empty_equals_unset (env : DatabaseEnvironment) :
    (DATABASE_PATH { env with DATABASE_NAME := some "" } =
        DATABASE_PATH { env with DATABASE_NAME := none } ∧
      (DATABASE_CONFIGURATION { env with DATABASE_NAME := some "" }).name = "trivia") ∧
    (DATABASE_PATH { env with DATABASE_HOST := some "" } =
        DATABASE_PATH { env with DATABASE_HOST := none } ∧
      (DATABASE_CONFIGURATION { env with DATABASE_HOST := some "" }).host = "localhost") ∧
    (DATABASE_PATH { env with DATABASE_PORT := some "" } =
        DATABASE_PATH { env with DATABASE_PORT := none } ∧
      (DATABASE_CONFIGURATION { env with DATABASE_PORT := some "" }).port = "5432") := by
  refine ⟨⟨?_, ?_⟩, ⟨?_, ?_⟩, ⟨?_, ?_⟩⟩ <;>
    simp [DATABASE_PATH, DATABASE_CONFIGURATION, pyOrDefault]

/-- C7: for each of the seven wired status codes the registered error
handler produces exactly the envelope with success false, the numeric code
in the error field, the name string of that status in the message field,
and an HTTP status equal to the error field. -/
theorem error_envelope_uniform_shape (code : Nat)
    (h : code ∈ [400, 401, 403, 404, 405, 422, 500]) :
    ∃ s : StatusCode, s.value = code ∧
      appErrorResponse code = some (⟨false, code, s.name⟩, code) := by
  fin_cases h
  · exact ⟨StatusCode.HTTP_400_BAD_REQUEST, rfl, rfl⟩
  · exact ⟨StatusCode.HTTP_401_UNAUTHORIZED, rfl, rfl⟩
  · exact ⟨StatusCode.HTTP_403_FORBIDDEN, rfl, rfl⟩
  · exact ⟨StatusCode.HTTP_404_NOT_FOUND, rfl, rfl⟩
  · exact ⟨StatusCode.HTTP_405_METHOD_NOT_ALLOWED, rfl, rfl⟩
  · exact ⟨StatusCode.HTTP_422_UNPROCESSABLE_ENTITY, rfl, rfl⟩
  · exact ⟨StatusCode.HTTP_500_INTERNAL_SERVER_ERROR, rfl, rfl⟩

/-- Witness for C7 at the concrete status code 404. -/
theorem error_envelope_uniform_shape_witness :
    ∃ s : StatusCode, s.value = 404 ∧
      appErrorResponse 404 = some (⟨false, 404, s.name⟩, 404) :=
  error_envelope_uniform_shape 404 (by norm_num)

/-- C6 (modelled from the spec, the handler being an unimplemented TODO in
flaskr): however the random pick falls out, a question returned by
POST /quizzes never has its id among previous_questions; and when every
candidate of the selected pool has its id among previous_questions, the
response is a 200 success whose question is null. -/
theorem play_quiz_excludes_previous (store : TriviaStore) (categoryId : Nat)
    (previousQuestions : List Nat) (pick : Nat) :
    (∀ fq : FormattedQuestion,
        play_quiz store (some categoryId) previousQuestions pick =
          Response.ok ⟨true, some fq⟩ StatusCode.HTTP_200_OK.value →
        fq.id ∉ previousQuestions) ∧
    ((∀ q ∈ quizPool store categoryId, q.id ∈ previousQuestions) →
      play_quiz store (some categoryId) previousQuestions pick =
        Response.ok ⟨true, none⟩ StatusCode.HTTP_200_OK.value) := by
  constructor
  · intro fq hresp
    unfold play_quiz at hresp
    dsimp only at hresp
    rcases hget :
        ((quizPool store categoryId).filter
          (fun q => decide (q.id ∉ previousQuestions)))[pick %
            ((quizPool store categoryId).filter
              (fun q => decide (q.id ∉ previousQuestions))).length]? with _ | q
    · rw [hget] at hresp
      simp at hresp
    · rw [hget] at hresp
      have hq : q ∈ (quizPool store categoryId).filter
          (fun q => decide (q.id ∉ previousQuestions)) := by
        rcases List.getElem?_eq_some.mp hget with ⟨hlt, rfl⟩
        exact List.getElem_mem hlt
      rw [List.mem_filter] at hq
      have hnot : q.id ∉ previousQuestions := by simpa using hq.2
      have hfq : some q.format = some fq := by
        simpa [Response.ok.injEq, QuizPayload.mk.injEq] using hresp
      have hid : fq.id = q.id := by
        cases Option.some.inj hfq
        rfl
      rw [hid]
      exact hnot
  · intro hall
    unfold play_quiz
    dsimp only
    have hnil : (quizPool store categoryId).filter
        (fun q => decide (q.id ∉ previousQuestions)) = [] := by
      refine List.filter_eq_nil_iff.mpr ?_
      intro q hq
      simpa using hall q hq
    rw [hnil]
    rfl

/-- Witness for C6 at a concrete one-question store where the only
candidate is excluded. -/
theorem play_quiz_excludes_previous_witness :
    play_quiz singleQuestionStore (some 1) [5] 0 =
      Response.ok ⟨true, none⟩ StatusCode.HTTP_200_OK.value :=
  (play_quiz_excludes_previous singleQuestionStore 1 [5] 0).2 (by decide)

/-- When the requested page slice is non-empty, GET /questions succeeds and
returns the formatted slice with the pre-pagination total. -/
theorem list_questions_of_ne_nil (store : TriviaStore) (page : Int)
    (h : (paginate_selection store.questions page QUESTIONS_PER_PAGE).1 ≠ []) :
    list_questions store page = Response.ok
      ⟨true, none, store.categories.map (fun c => (c.id, c.type)),
       format_selection (paginate_selection store.questions page QUESTIONS_PER_PAGE).1,
       (paginate_selection store.questions page QUESTIONS_PER_PAGE).2⟩
      StatusCode.HTTP_200_OK.value := by
  unfold list_questions
  rw [if_neg (by simpa [List.length_eq_zero] using h)]
  rfl

/-- C8: creating a question from any body and then listing questions finds,
on the last page, a question whose question, answer, category and
difficulty fields equal those of the created body. -/
theorem create_then_list_roundtrip (store : TriviaStore) (b : QuestionBody) :
    ∃ (page : Int) (payload : ListQuestionsPayload),
      list_questions (create_question store (some b)).1 page =
        Response.ok payload StatusCode.HTTP_200_OK.value ∧
      ∃ fq ∈ payload.questions,
        fq.question = b.question ∧ fq.answer = b.answer ∧
        fq.category = b.category ∧ fq.difficulty = b.difficulty := by
  have hstore : (create_question store (some b)).1 =
      ⟨store.questions ++ [⟨store.nextId, b.question, b.answer, b.category, b.difficulty⟩],
       store.categories, store.nextId + 1⟩ := rfl
  set newQ : Question := ⟨store.nextId, b.question, b.answer, b.category, b.difficulty⟩ with hnewQ
  set qs : List Question := store.questions ++ [newQ] with hqs
  set L : Nat := store.questions.length with hL
  set k : Nat := L / 10 * 10 with hk
  have hdm := Nat.div_add_mod L 10
  have hmlt : L % 10 < 10 := Nat.mod_lt _ (by norm_num)
  have hkL : k ≤ L := by omega
  have hlen : qs.length = L + 1 := by simp [hqs]
  set page : Int := ((L / 10 : Nat) : Int) + 1 with hpage
  have hp1 : 1 ≤ page := by
    have := Int.natCast_nonneg (L / 10)
    omega
  have hpk : (((page - 1) * 10).toNat) = k := by
    have h1 : (page - 1) * 10 = ((k : Nat) : Int) := by
      rw [hpage, hk]
      push_cast
      ring
    rw [h1, Int.toNat_natCast]
  have hps : paginate_selection qs page 10 = ((qs.drop k).take 10, qs.length) := by
    rw [paginate_selection_pos qs page hp1, hpk]
  have hdropLen : (qs.drop k).length = L + 1 - k := by
    rw [List.length_drop, hlen]
  have htake : (qs.drop k).take 10 = qs.drop k :=
    List.take_of_length_le (by omega)
  rw [htake] at hps
  have hfst : (paginate_selection qs page QUESTIONS_PER_PAGE).1 = qs.drop k := by
    rw [show QUESTIONS_PER_PAGE = (10 : Int) from rfl, hps]
  have hne : (paginate_selection qs page QUESTIONS_PER_PAGE).1 ≠ [] := by
    rw [hfst]
    intro hnil
    have := congrArg List.length hnil
    rw [hdropLen] at this
    simp at this
    omega
  have hmem : newQ ∈ (paginate_selection qs page QUESTIONS_PER_PAGE).1 := by
    rw [hfst, hqs, List.drop_append_eq_append_drop]
    refine List.mem_append_right _ ?_
    have hz : k - store.questions.length = 0 := by omega
    rw [hz]
    simp
  refine ⟨page,
    ⟨true, none, store.categories.map (fun cat => (cat.id, cat.type)),
     format_selection (paginate_selection qs page QUESTIONS_PER_PAGE).1,
     (paginate_selection qs page QUESTIONS_PER_PAGE).2⟩, ?_, ?_⟩
  · rw [hstore]
    exact list_questions_of_ne_nil
      ⟨qs, store.categories, store.nextId + 1⟩ page (by simpa using hne)
  · refine ⟨newQ.format, ?_, rfl, rfl, rfl, rfl⟩
    exact List.mem_map_of_mem Question.format hmem

end Trivia
